import Mathlib

/-!
Verification of the NYT crossword plotting script (`plot/plot.py`).

The script has two stages: `parse_data` (load the CSV, derive the solved-at
datetime, reindex and sort by it, filter) and `save_plot` (per-weekday
56-day rolling mean of solve duration, y-axis clamped at the 99th percentile
of solve duration, figure written to the output path).  Both stages are
embedded here over a `Record` type mirroring one CSV row; epoch-second
timestamps are `Int`, nullable numeric fields are `Option`.
-/

namespace NYTPlot

/-- One row of the crossword CSV: puzzle date, open/solved epoch timestamps,
solve duration in seconds (`none` when the puzzle is unsolved / the cell is
NaN), weekday label, and the assisted-solve ("cheated") flag (`none` when the
cell is missing / NaN). -/
structure Record where
  date : Int
  opened_unix : Int
  solved_unix : Int
  solve_time_secs : Option ℚ
  weekday : String
  cheated : Option Bool
deriving DecidableEq, Repr, Inhabited

/-- Derived solved-at datetime, `pd.to_datetime(df["solved_unix"], unit="s")`
(plot.py:28): the solved epoch timestamp itself, in seconds. -/
def solvedDatetime (r : Record) : Int := r.solved_unix

/-- The solve duration as consumed by the numeric pipeline.  The default `0`
stands for a null cell and is never used after filtering, which removes every
row with a null duration. -/
def duration (r : Record) : ℚ := r.solve_time_secs.getD 0

/-- The row filter of plot.py:41-45: keep rows with
`solved_unix - opened_unix < 3600 * 24 * 7`, `cheated == False` (a
missing/NaN flag never compares equal to `False` in pandas), and a non-null
`solve_time_secs`. -/
def keepRecord (r : Record) : Bool :=
  decide (r.solved_unix - r.opened_unix < 3600 * 24 * 7)
    && (r.cheated == some false)
    && r.solve_time_secs.isSome

/-- Sort key of `df.sort_index()` (plot.py:35) after the index was replaced by
the solved-at datetime (plot.py:34). -/
def bySolved (a b : Record) : Prop := solvedDatetime a ≤ solvedDatetime b

instance : DecidableRel bySolved := fun a b =>
  inferInstanceAs (Decidable (solvedDatetime a ≤ solvedDatetime b))

instance : IsTotal Record bySolved := ⟨fun a b => Int.le_total _ _⟩

instance : IsTrans Record bySolved := ⟨fun _ _ _ h₁ h₂ => Int.le_trans h₁ h₂⟩

/-- The filtering stage of `parse_data` (plot.py:41-45) in isolation. -/
def filterSolves (rs : List Record) : List Record := rs.filter keepRecord

/-- `parse_data` (plot.py:18-47): reindex by the solved-at datetime, sort by
it, then filter.  (pandas `sort_index` leaves the order among equal keys
unspecified — its default `quicksort` is not stable — so any comparison sort
is a faithful model; we use insertion sort.) -/
def parse_data (rs : List Record) : List Record :=
  filterSolves (List.insertionSort bySolved rs)

/-- Every record of the filtered output passed the row filter. -/
theorem mem_parse_data_keep {rs : List Record} {r : Record}
    (h : r ∈ parse_data rs) : keepRecord r = true := by
  have h' : r ∈ (List.insertionSort bySolved rs).filter keepRecord := h
  exact (List.mem_filter.mp h').2

/-- The filtered output is pairwise nondecreasing in the sort key. -/
theorem parse_data_pairwise (rs : List Record) :
    (parse_data rs).Pairwise bySolved :=
  List.Pairwise.sublist (List.filter_sublist _)
    (List.sorted_insertionSort bySolved rs)

/-- C2: every record in the filtered output of the loader satisfies all three
conditions: its assisted/cheated flag is `false`, its solve duration is
non-null, and its solved timestamp minus its opened timestamp is strictly
less than 604800 seconds. -/
theorem parse_data_filter_invariant (rs : List Record) (r : Record)
    (h : r ∈ parse_data rs) :
    r.cheated = some false ∧ r.solve_time_secs.isSome ∧
      r.solved_unix - r.opened_unix < 604800 := by
  have hk := mem_parse_data_keep h
  simp only [keepRecord, Bool.and_eq_true, decide_eq_true_eq,
    beq_iff_eq] at hk
  refine ⟨hk.1.2, hk.2, ?_⟩
  have := hk.1.1
  omega

/-- A concrete record passing the filter. -/
def rGood : Record :=
  { date := 0, opened_unix := 990, solved_unix := 1000,
    solve_time_secs := some 300, weekday := "Saturday",
    cheated := some false }

/-- A concrete record rejected by the filter (assisted solve). -/
def rCheat : Record :=
  { date := 0, opened_unix := 990, solved_unix := 1000,
    solve_time_secs := some 300, weekday := "Saturday",
    cheated := some true }

/-- A concrete record whose cheated flag is missing. -/
def rNoFlag : Record :=
  { date := 0, opened_unix := 990, solved_unix := 1000,
    solve_time_secs := some 300, weekday := "Saturday",
    cheated := none }

/-- Witness for C2 at a concrete input. -/
theorem parse_data_filter_invariant_witness :
    rGood ∈ parse_data [rGood] ∧
      (rGood.cheated = some false ∧ rGood.solve_time_secs.isSome ∧
        rGood.solved_unix - rGood.opened_unix < 604800) :=
  ⟨by decide, parse_data_filter_invariant [rGood] rGood (by decide)⟩

/-- C3: the sequence produced by the loader/filter is ordered nondecreasing
by solved-at datetime, even though the sort is performed before the
filtering step. -/
theorem parse_data_sorted (rs : List Record) :
    (parse_data rs).Pairwise
      (fun a b => solvedDatetime a ≤ solvedDatetime b) :=
  parse_data_pairwise rs

/-- C9: a record whose cheated field is missing (null/NaN) is excluded by
the filter, because only records whose cheated value compares equal to
`False` are retained. -/
theorem missing_cheated_excluded (rs : List Record) (r : Record)
    (h : r.cheated = none) : r ∉ parse_data rs := by
  intro hmem
  have hk := mem_parse_data_keep hmem
  simp only [keepRecord, Bool.and_eq_true, decide_eq_true_eq,
    beq_iff_eq] at hk
  rw [h] at hk
  exact Option.noConfusion hk.1.2

/-- Witness for C9 at a concrete input. -/
theorem missing_cheated_excluded_witness :
    rNoFlag ∉ parse_data [rNoFlag] :=
  missing_cheated_excluded [rNoFlag] rNoFlag rfl

/-- C10: the loader's filter is idempotent — applying the filter to the
loader's (already filtered) output returns it unchanged, and re-filtering
any already-filtered collection preserves it, membership and order alike. -/
theorem filterSolves_idempotent (rs : List Record) :
    filterSolves (parse_data rs) = parse_data rs ∧
      ∀ l : List Record, filterSolves (filterSolves l) = filterSolves l := by
  constructor
  · show filterSolves (filterSolves _) = filterSolves _
    simp [filterSolves, List.filter_filter]
  · intro l
    simp [filterSolves, List.filter_filter]

/-- Length of the `"56D"` rolling-window offset (plot.py:60), in seconds. -/
def windowSecs : Int := 56 * 24 * 3600

/-- Weekday sub-series `df[df["weekday"] == day]` (plot.py:60), in index
order. -/
def wdaySeries (df : List Record) (day : String) : List Record :=
  df.filter (fun r => r.weekday == day)

/-- Arithmetic mean of a list of rationals.  (It is never applied to an
empty window: a rolling window always contains its anchor row.) -/
def mean (xs : List ℚ) : ℚ := xs.sum / (xs.length : ℚ)

/-- The pandas `rolling("56D")` window anchored at position `i` of `ts`
(default `closed='right'`): the rows at positions `≤ i` whose index lies in
the half-open interval `(t_i - 56 days, t_i]`.  For a monotone index these
are exactly the rows of `ts.take (i + 1)` with `t_i - 56 days < t`. -/
def windowAt (ts : List Record) (i : Nat) : List Record :=
  (ts.take (i + 1)).filter (fun r =>
    decide (solvedDatetime (ts.getD i default) - windowSecs < solvedDatetime r))

/-- `rolling("56D").mean()` at position `i` (plot.py:60). -/
def rollingMeanAt (ts : List Record) (i : Nat) : ℚ :=
  mean ((windowAt ts i).map duration)

/-- The spec's window formula, kept separate for comparison with
`rollingMeanAt`: the arithmetic mean of the durations of ALL records of the
series whose solved-at datetime lies in `(t - 56 days, t]`, regardless of
their position relative to the anchor record. -/
def intervalMean (ts : List Record) (t : Int) : ℚ :=
  mean ((ts.filter (fun r =>
    decide (t - windowSecs < solvedDatetime r)
      && decide (solvedDatetime r ≤ t))).map duration)

/-- pandas `Series.quantile(q)` with the default linear interpolation
(plot.py:54): with sorted values `v 0 ≤ … ≤ v (n-1)` the result is
`v lo + (h - lo) * (v (lo+1) - v lo)` where `h = q * (n - 1)` and
`lo = floor h`; an empty series yields NaN, modelled as `none`. -/
def quantileLinear (q : ℚ) (xs : List ℚ) : Option ℚ :=
  match xs with
  | [] => none
  | _ :: _ =>
      let s := List.insertionSort (· ≤ ·) xs
      let h : ℚ := q * ((s.length : ℚ) - 1)
      let lo : Nat := ⌊h⌋.toNat
      let frac : ℚ := h - (lo : ℚ)
      some (s.getD lo 0 + frac * (s.getD (lo + 1) (s.getD lo 0) - s.getD lo 0))

deriving instance DecidableEq for Except

/-- A Python exception, as observable from this program. -/
inductive PyError where
  | indexError
  | parseError (msg : String)
  | valueError (msg : String)
  | writeError (msg : String)
deriving DecidableEq, Repr

/-- The figure assembled by `save_plot`: one labelled line series per
weekday, axis labels, and the static y-axis upper bound `Y_MAX`. -/
structure Chart where
  title : String
  series : List (String × List (Int × ℚ))
  xlabel : String
  ylabel : String
  yMax : ℚ
deriving DecidableEq, Repr

/-- Helper for `uniqueInOrder`: distinct values in order of first
appearance, skipping those already seen. -/
def uniqueAux : List String → List String → List String
  | [], _ => []
  | x :: xs, seen =>
      if x ∈ seen then uniqueAux xs seen else x :: uniqueAux xs (x :: seen)

/-- pandas `Series.unique()` (plot.py:51): the distinct values in order of
first appearance. -/
def uniqueInOrder (l : List String) : List String := uniqueAux l []

/-- The line series plotted for weekday `day` (plot.py:59-63): x-values are
the solved-at datetimes of that weekday's records, y-values the 56-day
rolling mean of their durations divided by 60 (minutes). -/
def seriesFor (df : List Record) (day : String) : List (Int × ℚ) :=
  let ts := wdaySeries df day
  (List.range ts.length).map
    (fun i => (solvedDatetime (ts.getD i default), rollingMeanAt ts i / 60))

/-- The figure built by `save_plot` before it is written (plot.py:50-72),
when the y-limit computation succeeds.  With an empty frame `Y_MAX` is the
NaN 0.99-quantile of an empty series, and the y-tick computation
`np.arange(0, Y_MAX + 1, 5)` / `ax.set_ylim(0, Y_MAX)` raises `ValueError`
on the non-finite bound, so no figure is produced: result `none`. -/
def chartOf (df : List Record) : Option Chart :=
  (quantileLinear (99 / 100) (df.map duration)).map (fun q99 =>
    { title :=
        "NYT crossword solve time (8-week rolling average) by date of solve",
      series := (uniqueInOrder (df.map (fun r => r.weekday))).map
        (fun day => (day, seriesFor df day)),
      xlabel := "Date solved",
      ylabel := "Minutes",
      yMax := q99 / 60 })

/-- `save_plot` (plot.py:50-73): build the figure and write it with the
given write action (`plt.savefig`, which fails on an unsupported extension
or an unwritable path).  On an empty frame the axis-limit step raises
`ValueError` (see `chartOf`), uncaught here. -/
def save_plot (df : List Record) (write : Chart → Except PyError Unit) :
    Except PyError Chart :=
  match chartOf df with
  | none => .error (.valueError "Axis limits cannot be NaN or Inf")
  | some c =>
      match write c with
      | .error e => .error e
      | .ok _ => .ok c

/-- A write action that always succeeds. -/
def okWrite : Chart → Except PyError Unit := fun _ => .ok ()

/-- Observable outcome of one run of the program. -/
inductive MainOutcome where
  | usageReturn (msg : String)
  | success (chart : Chart)
  | uncaught (e : PyError)
deriving DecidableEq, Repr

/-- The usage message printed on missing arguments (plot.py:83-87). -/
def usageMsg (prog : String) : String :=
  "Required arguments not given. Usage: " ++ prog ++
    " <input_csv_file> <output_file>"

/-- `main` (plot.py:76-91): reading `sys.argv[1]` / `sys.argv[2]` is guarded
by a bare `except` that prints the usage message and returns normally;
everything after the `try` block runs unguarded, so any failure of the
loader (`load`, modelling `pd.read_csv`) or of the renderer/writer
propagates uncaught. -/
def main (argv : List String) (load : String → Except PyError (List Record))
    (write : String → Chart → Except PyError Unit) : MainOutcome :=
  match argv[1]?, argv[2]? with
  | some inFile, some outFile =>
      match load inFile with
      | .error e => .uncaught e
      | .ok rs =>
          match save_plot (parse_data rs) (write outFile) with
          | .error e => .uncaught e
          | .ok c => .success c
  | _, _ => .usageReturn (usageMsg (argv.getD 0 ""))

/-- CPython's process exit status for this script: a normal return from
`main` exits with status 0; an uncaught exception terminates the
interpreter with status 1. -/
def exitCode : MainOutcome → Nat
  | .uncaught _ => 1
  | _ => 0

/-- First of two same-weekday records sharing a solved-at timestamp. -/
def rDupA : Record :=
  { date := 0, opened_unix := 50, solved_unix := 100,
    solve_time_secs := some 0, weekday := "Monday", cheated := some false }

/-- Second of two same-weekday records sharing a solved-at timestamp. -/
def rDupB : Record :=
  { date := 0, opened_unix := 50, solved_unix := 100,
    solve_time_secs := some 2, weekday := "Monday", cheated := some false }

/-- The chart rendered from the single-record input `[rGood]`. -/
def chartGood : Chart :=
  { title :=
      "NYT crossword solve time (8-week rolling average) by date of solve",
    series := [("Saturday", [(1000, 5)])],
    xlabel := "Date solved",
    ylabel := "Minutes",
    yMax := 5 }

/-- Membership in `uniqueAux`: the values of the list not yet seen. -/
theorem mem_uniqueAux (l : List String) (seen : List String) (d : String) :
    d ∈ uniqueAux l seen ↔ d ∈ l ∧ d ∉ seen := by
  induction l generalizing seen with
  | nil => simp [uniqueAux]
  | cons x xs ih =>
      by_cases hx : x ∈ seen
      · rw [uniqueAux, if_pos hx, ih]
        constructor
        · rintro ⟨h1, h2⟩
          exact ⟨List.mem_cons_of_mem _ h1, h2⟩
        · rintro ⟨h1, h2⟩
          rcases List.mem_cons.mp h1 with rfl | h1
          · exact absurd hx h2
          · exact ⟨h1, h2⟩
      · rw [uniqueAux, if_neg hx]
        constructor
        · intro hmem
          rcases List.mem_cons.mp hmem with rfl | h1
          · exact ⟨List.mem_cons_self _ _, hx⟩
          · have h2 := (ih _).mp h1
            exact ⟨List.mem_cons_of_mem _ h2.1,
              fun hd => h2.2 (List.mem_cons_of_mem _ hd)⟩
        · rintro ⟨h1, h2⟩
          rcases List.mem_cons.mp h1 with rfl | h1
          · exact List.mem_cons_self _ _
          · by_cases hdx : d = x
            · subst hdx
              exact List.mem_cons_self _ _
            · refine List.mem_cons_of_mem _ ((ih _).mpr ⟨h1, fun hm => ?_⟩)
              rcases List.mem_cons.mp hm with h | h
              · exact hdx h
              · exact h2 h

/-- `uniqueAux` never repeats a value. -/
theorem nodup_uniqueAux (l : List String) (seen : List String) :
    (uniqueAux l seen).Nodup := by
  induction l generalizing seen with
  | nil => exact List.nodup_nil
  | cons x xs ih =>
      by_cases hx : x ∈ seen
      · rw [uniqueAux, if_pos hx]
        exact ih _
      · rw [uniqueAux, if_neg hx]
        refine List.nodup_cons.mpr ⟨fun hmem => ?_, ih _⟩
        exact ((mem_uniqueAux _ _ _).mp hmem).2 (List.mem_cons_self _ _)

/-- Over a strictly increasing solved-at index, the positional rolling window
anchored at row `i` holds exactly the rows of the whole series whose
solved-at datetime lies in the 56-day half-open interval ending at the
anchor's datetime. -/
theorem windowAt_eq_interval (ts : List Record) (i : Nat)
    (hsort : ts.Pairwise (fun a b => solvedDatetime a < solvedDatetime b))
    (hi : i < ts.length) :
    windowAt ts i = ts.filter (fun r =>
      decide (solvedDatetime (ts.getD i default) - windowSecs
          < solvedDatetime r)
        && decide (solvedDatetime r ≤ solvedDatetime (ts.getD i default))) := by
  have hpw := List.pairwise_iff_getElem.mp hsort
  have haa : ts.getD i default = ts[i] := List.getD_eq_getElem ts default hi
  simp only [windowAt, haa]
  generalize hA : ts[i] = A
  conv_rhs => rw [← List.take_append_drop (i + 1) ts]
  rw [List.filter_append]
  have hdrop : (ts.drop (i + 1)).filter (fun r =>
      decide (solvedDatetime A - windowSecs < solvedDatetime r)
        && decide (solvedDatetime r ≤ solvedDatetime A)) = [] := by
    rw [List.filter_eq_nil_iff]
    intro r hr
    obtain ⟨j, hj, hjr⟩ := List.mem_iff_getElem.mp hr
    have hjlen : i + 1 + j < ts.length := by
      rw [List.length_drop] at hj
      omega
    have hlt : solvedDatetime A < solvedDatetime r := by
      rw [← hA, ← hjr, List.getElem_drop]
      exact hpw i (i + 1 + j) hi hjlen (by omega)
    simp only [Bool.and_eq_true, decide_eq_true_eq, not_and]
    intro _
    omega
  have htake : (ts.take (i + 1)).filter (fun r =>
      decide (solvedDatetime A - windowSecs < solvedDatetime r)
        && decide (solvedDatetime r ≤ solvedDatetime A))
      = (ts.take (i + 1)).filter (fun r =>
      decide (solvedDatetime A - windowSecs < solvedDatetime r)) := by
    apply List.filter_congr
    intro r hr
    obtain ⟨j, hj, hjr⟩ := List.mem_iff_getElem.mp hr
    have hjlen : j < ts.length := by
      rw [List.length_take] at hj
      omega
    have hji : j < i + 1 := by
      rw [List.length_take] at hj
      omega
    have hle : solvedDatetime r ≤ solvedDatetime A := by
      rw [← hA, ← hjr, List.getElem_take]
      rcases Nat.lt_or_ge j i with hlt | hge
      · exact le_of_lt (hpw j i hjlen hi hlt)
      · have hjeq : j = i := by omega
        subst hjeq
        exact le_refl _
    rw [decide_eq_true hle, Bool.and_true]
  rw [hdrop, htake, List.append_nil]

/-- C1 as stated fails on duplicate timestamps: in this two-record input both
records share weekday "Monday" and solved-at datetime 100, so the rolling
mean anchored at the first record (its own duration, 0) differs from the
spec's interval mean over `(100 - 56 days, 100]` (the average 1 of both
durations). -/
theorem rolling_mean_window_counterexample :
    rollingMeanAt (wdaySeries (parse_data [rDupA, rDupB]) "Monday") 0
      ≠ intervalMean (wdaySeries (parse_data [rDupA, rDupB]) "Monday")
          (solvedDatetime
            ((wdaySeries (parse_data [rDupA, rDupB]) "Monday").getD 0 default)) := by
  norm_num [rollingMeanAt, windowAt, mean, intervalMean, wdaySeries, parse_data,
    filterSolves, keepRecord, solvedDatetime, windowSecs, duration, rDupA, rDupB,
    List.insertionSort, List.orderedInsert, bySolved]

/-- C1 (amended): for each weekday series, provided that series' solved-at
datetimes are pairwise distinct, the rolling mean anchored at the record in
position `i` (solved-at datetime `T`) equals the arithmetic mean of the
weekday's durations with solved-at datetime in `(T - 56 days, T]`; with
duplicated solved-at datetimes the window instead ends at the anchor row, as
the counterexample shows. -/
theorem rolling_mean_window (rs : List Record) (day : String) (i : Nat)
    (hi : i < (wdaySeries (parse_data rs) day).length)
    (hdist : (wdaySeries (parse_data rs) day).Pairwise
      (fun a b => solvedDatetime a ≠ solvedDatetime b)) :
    rollingMeanAt (wdaySeries (parse_data rs) day) i
      = intervalMean (wdaySeries (parse_data rs) day)
          (solvedDatetime ((wdaySeries (parse_data rs) day).getD i default)) := by
  have hle : (wdaySeries (parse_data rs) day).Pairwise bySolved :=
    List.Pairwise.sublist (List.filter_sublist _) (parse_data_pairwise rs)
  have hlt : (wdaySeries (parse_data rs) day).Pairwise
      (fun a b => solvedDatetime a < solvedDatetime b) :=
    (hle.and hdist).imp (fun h => lt_of_le_of_ne h.1 h.2)
  rw [rollingMeanAt, windowAt_eq_interval _ i hlt hi, intervalMean]

/-- Witness for the amended C1 at a concrete input. -/
theorem rolling_mean_window_witness :
    rollingMeanAt (wdaySeries (parse_data [rGood]) "Saturday") 0
      = intervalMean (wdaySeries (parse_data [rGood]) "Saturday")
          (solvedDatetime
            ((wdaySeries (parse_data [rGood]) "Saturday").getD 0 default)) :=
  rolling_mean_window [rGood] "Saturday" 0 (by decide) (by decide)

/-- C5 as stated fails: a concrete input whose single record is rejected by
the filter leaves the filtered set empty, and the renderer then errors out
instead of writing an empty chart (the y-limit is the NaN 0.99-quantile of an
empty series). -/
theorem save_plot_empty_counterexample :
    save_plot (parse_data [rCheat]) okWrite
      = .error (.valueError "Axis limits cannot be NaN or Inf") := by
  decide

/-- C5 (amended): when no records pass the filter the renderer does not
succeed — computing the y-axis bound of an empty set yields NaN and the
axis-limit step raises an uncaught `ValueError`, so no chart is written;
with a nonempty filtered set (and a successful write) it returns a chart. -/
theorem save_plot_empty (rs : List Record) :
    (parse_data rs = [] →
      save_plot (parse_data rs) okWrite
        = .error (.valueError "Axis limits cannot be NaN or Inf")) ∧
    (parse_data rs ≠ [] →
      ∃ c, save_plot (parse_data rs) okWrite = .ok c) := by
  constructor
  · intro h
    rw [h]
    rfl
  · intro h
    cases hd : parse_data rs with
    | nil => exact absurd hd h
    | cons x xs => exact ⟨_, rfl⟩

/-- Witness for the amended C5 on both sides of the case split. -/
theorem save_plot_empty_witness :
    (save_plot (parse_data [rCheat]) okWrite
      = .error (.valueError "Axis limits cannot be NaN or Inf")) ∧
    ∃ c, save_plot (parse_data [rGood]) okWrite = .ok c :=
  ⟨(save_plot_empty [rCheat]).1 (by decide),
   (save_plot_empty [rGood]).2 (by decide)⟩

/-- C4: the chart's y-axis upper bound equals the 99th percentile of solve
duration over ALL records of the filtered set, divided by 60 to give
minutes; it is a single static bound, not per-series — relabelling every
record's weekday leaves it unchanged. -/
theorem yMax_is_p99 (rs : List Record) (c : Chart)
    (h : chartOf (parse_data rs) = some c) :
    c.yMax = (quantileLinear (99 / 100)
        ((parse_data rs).map duration)).getD 0 / 60 ∧
      ∀ (f : String → String) (c' : Chart),
        chartOf ((parse_data rs).map
          (fun r => { r with weekday := f r.weekday })) = some c' →
        c'.yMax = c.yMax := by
  have hdur : ∀ f : String → String,
      ((parse_data rs).map
        (fun r => { r with weekday := f r.weekday })).map duration
        = (parse_data rs).map duration := by
    intro f
    rw [List.map_map]
    rfl
  simp only [chartOf] at h
  obtain ⟨q99, hq, hcq⟩ := Option.map_eq_some'.mp h
  constructor
  · rw [hq, ← hcq]
    simp
  · intro f c' h'
    simp only [chartOf, hdur f, hq] at h'
    obtain ⟨q', hq', hcq'⟩ := Option.map_eq_some'.mp h'
    rw [← hcq', ← hcq]
    simp only []
    rw [Option.some_inj.mp hq']

/-- Witness for C4 at a concrete input. -/
theorem yMax_is_p99_witness :
    chartGood.yMax = (quantileLinear (99 / 100)
        ((parse_data [rGood]).map duration)).getD 0 / 60 :=
  (yMax_is_p99 [rGood] chartGood (by
    norm_num [chartOf, quantileLinear, parse_data, filterSolves, keepRecord,
      rGood, chartGood, uniqueInOrder, uniqueAux, seriesFor, wdaySeries,
      rollingMeanAt, windowAt, mean, solvedDatetime, windowSecs, duration,
      List.insertionSort, List.orderedInsert, bySolved, List.range_succ])).1

/-- C6: with zero or one command-line argument the program prints the usage
message and returns normally, with exit status 0. -/
theorem usage_on_missing_args (argv : List String)
    (load : String → Except PyError (List Record))
    (write : String → Chart → Except PyError Unit)
    (h : argv.length = 1 ∨ argv.length = 2) :
    main argv load write = .usageReturn (usageMsg (argv.getD 0 "")) ∧
      exitCode (main argv load write) = 0 := by
  have h2 : argv[2]? = none := by
    apply List.getElem?_eq_none
    omega
  have hm : main argv load write
      = .usageReturn (usageMsg (argv.getD 0 "")) := by
    unfold main
    rw [h2]
    cases argv[1]? <;> rfl
  exact ⟨hm, by rw [hm]; rfl⟩

/-- Witness for C6 at a concrete invocation. -/
theorem usage_on_missing_args_witness :
    main ["plot.py"] (fun _ => .ok []) (fun _ => okWrite)
        = .usageReturn (usageMsg "plot.py") ∧
      exitCode (main ["plot.py"] (fun _ => .ok []) (fun _ => okWrite)) = 0 :=
  usage_on_missing_args ["plot.py"] (fun _ => .ok []) (fun _ => okWrite)
    (Or.inl rfl)

/-- C7: with both arguments present, no handler intercepts a failure of the
loader or of the renderer/writer: the error propagates out of `main`
uncaught and the process exits with a non-zero status. -/
theorem errors_propagate_uncaught (argv : List String)
    (load : String → Except PyError (List Record))
    (write : String → Chart → Except PyError Unit) (e : PyError)
    (hlen : 3 ≤ argv.length)
    (h : load (argv.getD 1 "") = .error e ∨
      ∃ rs, load (argv.getD 1 "") = .ok rs ∧
        save_plot (parse_data rs) (write (argv.getD 2 "")) = .error e) :
    main argv load write = .uncaught e ∧
      exitCode (main argv load write) ≠ 0 := by
  rcases argv with _ | ⟨a0, _ | ⟨a1, _ | ⟨a2, rest⟩⟩⟩
  · simp at hlen
  · simp at hlen
  · simp at hlen
  · have hm : main (a0 :: a1 :: a2 :: rest) load write = .uncaught e := by
      rcases h with hload | ⟨rs, hload, hsave⟩
      · rw [show ((a0 :: a1 :: a2 :: rest).getD 1 "") = a1 from rfl] at hload
        simp only [main, List.getElem?_cons_succ, List.getElem?_cons_zero,
          hload]
      · rw [show ((a0 :: a1 :: a2 :: rest).getD 1 "") = a1 from rfl] at hload
        rw [show ((a0 :: a1 :: a2 :: rest).getD 2 "") = a2 from rfl] at hsave
        simp only [main, List.getElem?_cons_succ, List.getElem?_cons_zero,
          hload, hsave]
    exact ⟨hm, by rw [hm]; exact Nat.one_ne_zero⟩

/-- Witness for C7: a loader failure on a fully-specified invocation. -/
theorem errors_propagate_uncaught_witness :
    main ["plot.py", "in.csv", "out.png"]
        (fun _ => .error (.parseError "No such file or directory"))
        (fun _ => okWrite)
      = .uncaught (.parseError "No such file or directory") ∧
      exitCode (main ["plot.py", "in.csv", "out.png"]
        (fun _ => .error (.parseError "No such file or directory"))
        (fun _ => okWrite)) ≠ 0 :=
  errors_propagate_uncaught ["plot.py", "in.csv", "out.png"]
    (fun _ => .error (.parseError "No such file or directory"))
    (fun _ => okWrite) (.parseError "No such file or directory")
    (by decide) (Or.inl rfl)

/-- C8: the renderer produces exactly one line series per distinct weekday
present in the filtered data (labels are duplicate-free and are exactly the
weekdays occurring in the data), each series carrying that weekday's points
(solved-at datetime, rolling mean of duration divided by 60); and the
single-record scenario (duration 300 s) yields exactly one series with one
point at 5 minutes. -/
theorem one_series_per_weekday (rs : List Record) (c : Chart)
    (h : chartOf (parse_data rs) = some c) :
    ((c.series.map Prod.fst).Nodup ∧
      (∀ d, d ∈ c.series.map Prod.fst ↔
        ∃ r ∈ parse_data rs, r.weekday = d) ∧
      ∀ p ∈ c.series, p.2 = seriesFor (parse_data rs) p.1) ∧
    chartOf (parse_data [rGood]) = some chartGood := by
  constructor
  · simp only [chartOf] at h
    obtain ⟨q99, hq, hcq⟩ := Option.map_eq_some'.mp h
    refine ⟨?_, ?_, ?_⟩
    · rw [← hcq]
      simp only [List.map_map]
      rw [show (Prod.fst ∘ fun day => (day, seriesFor (parse_data rs) day))
          = id from rfl, List.map_id]
      exact nodup_uniqueAux _ _
    · intro d
      rw [← hcq]
      simp only [List.map_map]
      rw [show (Prod.fst ∘ fun day => (day, seriesFor (parse_data rs) day))
          = id from rfl, List.map_id]
      rw [uniqueInOrder, mem_uniqueAux]
      simp [List.mem_map]
    · intro p hp
      rw [← hcq] at hp
      simp only [List.mem_map] at hp
      obtain ⟨day, _, hpe⟩ := hp
      rw [← hpe]
  · norm_num [chartOf, quantileLinear, parse_data, filterSolves, keepRecord,
      rGood, chartGood, uniqueInOrder, uniqueAux, seriesFor, wdaySeries,
      rollingMeanAt, windowAt, mean, solvedDatetime, windowSecs, duration,
      List.insertionSort, List.orderedInsert, bySolved, List.range_succ]

/-- Witness for C8 at a concrete input. -/
theorem one_series_per_weekday_witness :
    (chartGood.series.map Prod.fst).Nodup :=
  (one_series_per_weekday [rGood] chartGood (by
    norm_num [chartOf, quantileLinear, parse_data, filterSolves, keepRecord,
      rGood, chartGood, uniqueInOrder, uniqueAux, seriesFor, wdaySeries,
      rollingMeanAt, windowAt, mean, solvedDatetime, windowSecs, duration,
      List.insertionSort, List.orderedInsert, bySolved,
      List.range_succ])).1.1

end NYTPlot
